import Mathlib

/-!
# Radiant-Backend: authentication controller and cache helpers

A shallow embedding of `src/utils/cache.js` and `src/controllers/authController.js`.

* Promises that may reject are `Except Thrown _`; a `try { .. } catch` block is a
  `match` on that result.
* The Mongo collections, the Redis keyspace, the session of the current client and
  the mails handed to the transporter form the explicit state `World`.
* The JavaScript built-ins and npm libraries (`JSON`, `bcrypt`, `crypto`) are the
  fields of `Lib`; everything a single request draws from its environment (clock,
  random bytes, which external calls reject) is in `Env`.
-/

namespace Radiant

/-! ## Data model -/

/-- A value produced by `JSON.parse`. -/
inductive JVal where
  | null
  | bool (b : Bool)
  | num (n : Int)
  | str (s : String)
  | arr (items : List JVal)
  | obj (fields : List (String × JVal))

/-- JavaScript truthiness of a parsed JSON value. -/
def JVal.truthy : JVal → Bool
  | .null => false
  | .bool b => b
  | .num n => n != 0
  | .str s => s != ""
  | .arr _ => true
  | .obj _ => true

/-- Property read `v[k]` on a non-null value; `none` is `undefined`. -/
def JVal.field (v : JVal) (k : String) : Option JVal :=
  match v with
  | .obj fs => (fs.find? (fun p => p.1 == k)).map Prod.snd
  | _ => none

/-- Modelled from the spec: the `User` document of `models/User` (section 3,
`{id, username, email, passwordHash, createdAt}`); `_id` is the hex form of the
ObjectId, `createdAt` is in milliseconds since the epoch. -/
structure User where
  _id : String
  username : String
  email : String
  password : String
  createdAt : Nat
  deriving DecidableEq, Repr

/-- Modelled from the spec: the `Token` document of `models/Token` (section 3,
`{userId, tokenDigest, expiresAt}`) with the field names the controller uses. -/
structure Token where
  userId : String
  token : String
  expires : Nat
  deriving DecidableEq, Repr

/-- One Redis entry written by `client.setEx(key, ttl, value)`. -/
structure CacheEntry where
  key : String
  ttl : Nat
  value : String
  deriving DecidableEq, Repr

/-- The argument of `transporter.sendMail`. -/
structure Mail where
  sender : String
  recipient : String
  subject : String
  text : String
  deriving DecidableEq, Repr

/-- The JSON body of a response. -/
inductive Body where
  | message (s : String)
  | msg (s : String)
  | errors (es : List String)
  deriving DecidableEq, Repr

/-- What `res.status(..).json(..)` sends. -/
structure Response where
  status : Nat
  body : Body
  deriving DecidableEq, Repr

/-- The state the handlers read and write: both Mongo collections, the Redis
keyspace, `req.session.userId` of the client (`none` is `undefined`) and the mails
accepted by the transporter. -/
structure World where
  users : List User
  tokens : List Token
  cache : List CacheEntry
  session : Option JVal
  outbox : List Mail

/-- An exception value (a rejected promise). -/
abbrev Thrown := String

/-- Which external calls reject during one request. -/
structure Faults where
  cacheGet : String → Bool
  cacheSetEx : String → Bool
  cacheDel : String → Bool
  userFind : Bool
  userSave : Bool
  tokenFind : Bool
  tokenSave : Bool
  tokenDelete : Bool
  sendMail : Bool

/-- No external call rejects. -/
def Faults.none : Faults :=
  { cacheGet := fun _ => false, cacheSetEx := fun _ => false, cacheDel := fun _ => false,
    userFind := false, userSave := false, tokenFind := false, tokenSave := false,
    tokenDelete := false, sendMail := false }

/-- The built-ins and libraries the code calls, and the two environment variables. -/
structure Lib where
  /-- The function `JSON.stringify`. -/
  stringify : JVal → Except Thrown String
  /-- The function `JSON.parse`. -/
  parse : String → Except Thrown JVal
  /-- The function `Date.prototype.toJSON`. -/
  dateToJSON : Nat → String
  /-- The digest `crypto.createHash("sha256").update(s).digest("hex")`. -/
  sha256hex : String → String
  /-- The function `bcrypt.hash(password, salt)`. -/
  bcryptHash : String → String → String
  /-- The function `bcrypt.compare(password, hash)` on two strings. -/
  bcryptCompare : String → String → Bool
  /-- The variable `process.env.EMAIL_USER`. -/
  emailUser : String
  /-- The variable `process.env.CLIENT_URL`. -/
  clientUrl : String

/-- What one request draws from its environment. -/
structure Env where
  /-- The value of `Date.now()`. -/
  now : Nat
  /-- The value of `bcrypt.genSalt(10)`. -/
  salt : String
  /-- The value of `crypto.randomBytes(32).toString("hex")`. -/
  randomHex : String
  /-- The ObjectId given to a document made by `new User`. -/
  newId : String
  faults : Faults

/-! ## `src/utils/cache.js` -/

/-- The constant `DEFAULT_EXPIRATION = 24 * 60 * 60`. -/
def DEFAULT_EXPIRATION : Nat := 24 * 60 * 60

/-- The call `client.get(key)`: the stored string, or `none` (null) when absent. -/
def clientGet (f : Faults) (cache : List CacheEntry) (key : String) :
    Except Thrown (Option String) :=
  if f.cacheGet key then .error "redis: get failed"
  else .ok ((cache.find? (fun e => e.key == key)).map CacheEntry.value)

/-- The call `client.setEx(key, ttl, value)`: replaces what was under `key`. -/
def clientSetEx (f : Faults) (cache : List CacheEntry) (key : String) (ttl : Nat)
    (value : String) : Except Thrown (List CacheEntry) :=
  if f.cacheSetEx key then .error "redis: setEx failed"
  else .ok ({ key := key, ttl := ttl, value := value } :: cache.filter (fun e => e.key != key))

/-- The call `client.del(key)`. -/
def clientDel (f : Faults) (cache : List CacheEntry) (key : String) :
    Except Thrown (List CacheEntry) :=
  if f.cacheDel key then .error "redis: del failed"
  else .ok (cache.filter (fun e => e.key != key))

/-- The body of the `try` block of `getFromCache`:
`data ? JSON.parse(data) : null`. -/
def getFromCacheTry (lib : Lib) (f : Faults) (cache : List CacheEntry) (key : String) :
    Except Thrown JVal :=
  match clientGet f cache key with
  | .error e => .error e
  | .ok none => .ok JVal.null
  | .ok (some data) => if data != "" then lib.parse data else .ok JVal.null

/-- The function `getFromCache(key)`. -/
def getFromCache (lib : Lib) (f : Faults) (cache : List CacheEntry) (key : String) :
    Except Thrown JVal :=
  match getFromCacheTry lib f cache key with
  | .ok v => .ok v
  | .error _ => .ok JVal.null

/-- The body of the `try` block of `setInCache`. -/
def setInCacheTry (lib : Lib) (f : Faults) (cache : List CacheEntry) (key : String)
    (data : JVal) (expiration : Nat) : Except Thrown (Bool × List CacheEntry) :=
  match lib.stringify data with
  | .error e => .error e
  | .ok stringData =>
    match clientSetEx f cache key expiration stringData with
    | .error e => .error e
    | .ok cache1 => .ok (true, cache1)

/-- The function `setInCache(key, data, expiration = DEFAULT_EXPIRATION)`; `none`
is an omitted third argument. The cache after the call is returned with the
result. -/
def setInCache (lib : Lib) (f : Faults) (cache : List CacheEntry) (key : String)
    (data : JVal) (expiration : Option Nat) : Except Thrown (Bool × List CacheEntry) :=
  match setInCacheTry lib f cache key data (expiration.getD DEFAULT_EXPIRATION) with
  | .ok r => .ok r
  | .error _ => .ok (false, cache)

/-- The function `deleteFromCache(key)`. -/
def deleteFromCache (f : Faults) (cache : List CacheEntry) (key : String) :
    Except Thrown (Bool × List CacheEntry) :=
  match clientDel f cache key with
  | .ok cache1 => .ok (true, cache1)
  | .error _ => .ok (false, cache)

/-! ## The collaborators of `src/controllers/authController.js` -/

/-- Modelled from the spec: `User.findOne(query)` of `models/User` (section 6,
"find by email/username/id"): the first document the query matches, or `none`. -/
def userFindOne (f : Faults) (users : List User) (q : User → Bool) :
    Except Thrown (Option User) :=
  if f.userFind then .error "mongo: find failed" else .ok (users.find? q)

/-- Modelled from the spec: `user.save()` on a document made by `new User`
(section 6, "create"): the document is added to the collection. -/
def userInsert (f : Faults) (users : List User) (u : User) : Except Thrown (List User) :=
  if f.userSave then .error "mongo: save failed" else .ok (users ++ [u])

/-- Replaces the first document whose `_id` is that of `u`. -/
def replaceUser (u : User) : List User → List User
  | [] => []
  | v :: rest => if v._id == u._id then u :: rest else v :: replaceUser u rest

/-- Modelled from the spec: `user.save()` on a document that was read from the
collection (section 6, "save"): the stored document with that `_id` is replaced. -/
def userUpdate (f : Faults) (users : List User) (u : User) : Except Thrown (List User) :=
  if f.userSave then .error "mongo: save failed" else .ok (replaceUser u users)

/-- Modelled from the spec: `Token.findOne(query)` of `models/Token` (section 6,
"find by digest+unexpired"). -/
def tokenFindOne (f : Faults) (tokens : List Token) (q : Token → Bool) :
    Except Thrown (Option Token) :=
  if f.tokenFind then .error "mongo: find failed" else .ok (tokens.find? q)

/-- Modelled from the spec: `token.save()` on a document made by `new Token`
(section 6, "create"). -/
def tokenInsert (f : Faults) (tokens : List Token) (t : Token) :
    Except Thrown (List Token) :=
  if f.tokenSave then .error "mongo: save failed" else .ok (tokens ++ [t])

/-- Modelled from the spec: `doc.deleteOne()` on a document that was read from the
token collection (section 6, "delete"): that one document is removed. -/
def tokenDeleteOne (f : Faults) (tokens : List Token) (t : Token) :
    Except Thrown (List Token) :=
  if f.tokenDelete then .error "mongo: delete failed" else .ok (tokens.erase t)

/-- The call `transporter.sendMail(mail)`. -/
def transporterSendMail (f : Faults) (outbox : List Mail) (m : Mail) :
    Except Thrown (List Mail) :=
  if f.sendMail then .error "smtp: send failed" else .ok (outbox ++ [m])

/-- The call `bcrypt.compare(password, hash)`, where `hash` is whatever the
`password` property of the user object holds: it rejects unless that is a string. -/
def bcryptCompare (lib : Lib) (password : String) (hash : Option JVal) :
    Except Thrown Bool :=
  match hash with
  | some (.str h) => .ok (lib.bcryptCompare password h)
  | _ => .error "data and hash must be strings"

/-! ## `src/controllers/authController.js` -/

/-- The helper `sendEmail(email, subject, text)`: a failure of the transporter is
logged and swallowed. -/
def sendEmail (lib : Lib) (f : Faults) (outbox : List Mail) (email subject text : String) :
    Except Thrown (List Mail) :=
  match transporterSendMail f outbox
      { sender := lib.emailUser, recipient := email, subject := subject, text := text } with
  | .ok outbox1 => .ok outbox1
  | .error _ => .ok outbox

/-- The object cached under `user:<id>`, as JSON. -/
def publicProjection (lib : Lib) (u : User) : JVal :=
  .obj [("_id", .str u._id), ("username", .str u.username), ("email", .str u.email),
        ("createdAt", .str (lib.dateToJSON u.createdAt))]

/-- The object cached under `user:email:<email>`, as JSON. -/
def fullProjection (lib : Lib) (u : User) : JVal :=
  .obj [("_id", .str u._id), ("username", .str u.username), ("email", .str u.email),
        ("password", .str u.password), ("createdAt", .str (lib.dateToJSON u.createdAt))]

/-- The answer of every `catch` block of the controller that uses `message`. -/
def serverErrorMessage : Response := { status := 500, body := .message "Server error" }

/-- The answer of every `catch` block of the controller that uses `msg`. -/
def serverErrorMsg : Response := { status := 500, body := .msg "Server error" }

/-- The `try` block of `register`; `errors` is `validationResult(req).array()`. -/
def registerTry (lib : Lib) (env : Env) (w : World) (errors : List String)
    (username email password : String) : Except Thrown Response × World :=
  if !errors.isEmpty then (.ok { status := 400, body := .errors errors }, w)
  else
    match userFindOne env.faults w.users
        (fun u => u.email == email || u.username == username) with
    | .error e => (.error e, w)
    | .ok (some _) => (.ok { status := 400, body := .message "User already exists" }, w)
    | .ok none =>
      let hashedPassword := lib.bcryptHash password env.salt
      let user : User :=
        { _id := env.newId, username := username, email := email,
          password := hashedPassword, createdAt := env.now }
      match userInsert env.faults w.users user with
      | .error e => (.error e, w)
      | .ok users1 =>
        let w1 := { w with users := users1 }
        match setInCache lib env.faults w1.cache ("user:" ++ user._id)
            (publicProjection lib user) none with
        | .error e => (.error e, w1)
        | .ok (_, cache1) =>
          (.ok { status := 201, body := .message "User registered successfully" },
           { w1 with cache := cache1 })

/-- The handler `exports.register`. -/
def register (lib : Lib) (env : Env) (w : World) (errors : List String)
    (username email password : String) : Response × World :=
  match registerTry lib env w errors username email password with
  | (.ok r, w1) => (r, w1)
  | (.error _, w1) => (serverErrorMessage, w1)

/-- The view of the `user` variable of `login` that the code after the lookup reads:
its `_id` and `password` properties. -/
structure LoginUser where
  _id : Option JVal
  password : Option JVal

/-- The lookup of `login` (lines 73-98): the `user` variable (`none` is a falsy
value) and the world after the cache writes. -/
def loginLookup (lib : Lib) (env : Env) (w : World) (email : String) :
    Except Thrown (Option LoginUser) × World :=
  match getFromCache lib env.faults w.cache ("user:email:" ++ email) with
  | .error e => (.error e, w)
  | .ok cachedUser =>
    if cachedUser.truthy then
      (.ok (some { _id := cachedUser.field "_id", password := cachedUser.field "password" }), w)
    else
      match userFindOne env.faults w.users (fun u => u.email == email) with
      | .error e => (.error e, w)
      | .ok none => (.ok none, w)
      | .ok (some user) =>
        match setInCache lib env.faults w.cache ("user:" ++ user._id)
            (publicProjection lib user) none with
        | .error e => (.error e, w)
        | .ok (_, cache1) =>
          let w1 := { w with cache := cache1 }
          match setInCache lib env.faults w1.cache ("user:email:" ++ email)
              (fullProjection lib user) none with
          | .error e => (.error e, w1)
          | .ok (_, cache2) =>
            (.ok (some { _id := some (.str user._id), password := some (.str user.password) }),
             { w1 with cache := cache2 })

/-- The `try` block of `login`. -/
def loginTry (lib : Lib) (env : Env) (w : World) (email password : String) :
    Except Thrown Response × World :=
  match loginLookup lib env w email with
  | (.error e, w1) => (.error e, w1)
  | (.ok none, w1) => (.ok { status := 401, body := .message "Invalid credentials" }, w1)
  | (.ok (some user), w1) =>
    match bcryptCompare lib password user.password with
    | .error e => (.error e, w1)
    | .ok isMatch =>
      if !isMatch then (.ok { status := 401, body := .message "Invalid credentials" }, w1)
      else
        (.ok { status := 200, body := .message "Logged in successfully" },
         { w1 with session := user._id })

/-- The handler `exports.login`. -/
def login (lib : Lib) (env : Env) (w : World) (email password : String) :
    Response × World :=
  match loginTry lib env w email password with
  | (.ok r, w1) => (r, w1)
  | (.error _, w1) => (serverErrorMessage, w1)

/-- The handler `exports.logout`: the session is destroyed. -/
def logout (w : World) : Response × World :=
  ({ status := 200, body := .message "Logged out successfully" }, { w with session := none })

/-- The `try` block of `forgotPassword`. -/
def forgotPasswordTry (lib : Lib) (env : Env) (w : World) (email : String) :
    Except Thrown Response × World :=
  match userFindOne env.faults w.users (fun u => u.email == email) with
  | .error e => (.error e, w)
  | .ok none => (.ok { status := 400, body := .msg "User with this email does not exist" }, w)
  | .ok (some user) =>
    let resetToken := env.randomHex
    let hashedToken := lib.sha256hex resetToken
    let token : Token :=
      { userId := user._id, token := hashedToken, expires := env.now + 3600000 }
    match tokenInsert env.faults w.tokens token with
    | .error e => (.error e, w)
    | .ok tokens1 =>
      let w1 := { w with tokens := tokens1 }
      let resetUrl := lib.clientUrl ++ "/reset-password/" ++ resetToken
      let message :=
        "You requested a password reset. Please make a PUT request to: " ++ resetUrl
      match sendEmail lib env.faults w1.outbox user.email "Password Reset" message with
      | .error e => (.error e, w1)
      | .ok outbox1 =>
        (.ok { status := 200, body := .msg "Password reset email sent" },
         { w1 with outbox := outbox1 })

/-- The handler `exports.forgotPassword`. -/
def forgotPassword (lib : Lib) (env : Env) (w : World) (email : String) :
    Response × World :=
  match forgotPasswordTry lib env w email with
  | (.ok r, w1) => (r, w1)
  | (.error _, w1) => (serverErrorMsg, w1)

/-- The `try` block of `resetPassword`; `token` is `req.params.token`. -/
def resetPasswordTry (lib : Lib) (env : Env) (w : World) (token password : String) :
    Except Thrown Response × World :=
  let hashedToken := lib.sha256hex token
  match tokenFindOne env.faults w.tokens
      (fun t => t.token == hashedToken && decide (t.expires > env.now)) with
  | .error e => (.error e, w)
  | .ok none => (.ok { status := 400, body := .msg "Invalid or expired token" }, w)
  | .ok (some passwordResetToken) =>
    match userFindOne env.faults w.users (fun u => u._id == passwordResetToken.userId) with
    | .error e => (.error e, w)
    | .ok none => (.ok { status := 400, body := .msg "User not found" }, w)
    | .ok (some user) =>
      let user1 := { user with password := lib.bcryptHash password env.salt }
      match userUpdate env.faults w.users user1 with
      | .error e => (.error e, w)
      | .ok users1 =>
        let w1 := { w with users := users1 }
        match tokenDeleteOne env.faults w1.tokens passwordResetToken with
        | .error e => (.error e, w1)
        | .ok tokens1 =>
          (.ok { status := 200, body := .msg "Password reset successful" },
           { w1 with tokens := tokens1 })

/-- The handler `exports.resetPassword`. -/
def resetPassword (lib : Lib) (env : Env) (w : World) (token password : String) :
    Response × World :=
  match resetPasswordTry lib env w token password with
  | (.ok r, w1) => (r, w1)
  | (.error _, w1) => (serverErrorMsg, w1)

/-- A request to one of the five routes of `/api/auth`. -/
inductive Request where
  | register (errors : List String) (username email password : String)
  | login (email password : String)
  | logout
  | forgotPassword (email : String)
  | resetPassword (token password : String)

/-- The handler a request is routed to. -/
def handle (lib : Lib) (env : Env) (w : World) : Request → Response × World
  | .register errors username email password =>
    register lib env w errors username email password
  | .login email password => login lib env w email password
  | .logout => logout w
  | .forgotPassword email => forgotPassword lib env w email
  | .resetPassword token password => resetPassword lib env w token password

/-- The world after a sequence of requests, each with its own environment. -/
def runAll (lib : Lib) (w : World) : List (Env × Request) → World
  | [] => w
  | (env, r) :: rest => runAll lib (handle lib env w r).2 rest

/-! ## A concrete library instance

Small executable stand-ins for the libraries, used to run the handlers on concrete
inputs. `miniStringify` and `miniParse` cover `null`, booleans and objects whose
properties are strings without escapes, which is the shape of every value the
controller caches. -/

/-- The double quote character. -/
def quoteChar : Char := Char.ofNat 34

/-- The text of one property, `"k":"v"`. -/
def renderField (k v : String) : List Char :=
  quoteChar :: k.data ++ quoteChar :: ':' :: quoteChar :: v.data ++ [quoteChar]

/-- The texts of the properties of an object, when all of them are strings. -/
def renderFields : List (String × JVal) → Option (List (List Char))
  | [] => some []
  | (k, .str v) :: rest => (renderFields rest).map (fun l => renderField k v :: l)
  | _ => none

/-- A stand-in for `JSON.stringify`. -/
def miniStringify : JVal → Except Thrown String
  | .null => .ok "null"
  | .bool true => .ok "true"
  | .bool false => .ok "false"
  | .obj fs =>
    match renderFields fs with
    | some l => .ok (String.mk (Char.ofNat 123 :: [','].intercalate l ++ [Char.ofNat 125]))
    | none => .error "unsupported value"
  | _ => .error "unsupported value"

/-- Splits a text at every double quote. -/
def splitQuote : List Char → List (List Char)
  | [] => [[]]
  | c :: cs =>
    match splitQuote cs with
    | [] => [[c]]
    | seg :: segs => if c = quoteChar then [] :: seg :: segs else (c :: seg) :: segs

/-- Reads `k":"v",..."k":"v"}` already split at the quotes. -/
def parseSegs : List (List Char) → Option (List (String × JVal))
  | k :: colon :: v :: sep :: rest =>
    if colon = [':'] then
      if sep = [Char.ofNat 125] ∧ rest = [] then some [(String.mk k, .str (String.mk v))]
      else if sep = [','] then
        (parseSegs rest).map (fun l => (String.mk k, .str (String.mk v)) :: l)
      else none
    else none
  | _ => none

/-- A stand-in for `JSON.parse`; a text it cannot read is a `SyntaxError`. -/
def miniParse (s : String) : Except Thrown JVal :=
  if s = "null" then .ok .null
  else if s = "true" then .ok (.bool true)
  else if s = "false" then .ok (.bool false)
  else
    match splitQuote s.data with
    | first :: segs =>
      if first = [Char.ofNat 123] then
        match parseSegs segs with
        | some fs => .ok (.obj fs)
        | none => .error "SyntaxError"
      else .error "SyntaxError"
    | [] => .error "SyntaxError"

/-- A stand-in for `bcrypt.hash`: the length of the salt in unary, a `$`, the salt,
then the password in clear. -/
def miniHash (password salt : String) : String :=
  String.mk (List.replicate salt.length 'x' ++ '$' :: (salt.data ++ password.data))

/-- The password part of a text made by `miniHash`. -/
def miniHashPassword (hash : List Char) : List Char :=
  hash.drop ((hash.takeWhile (fun c => c == 'x')).length + 1
    + (hash.takeWhile (fun c => c == 'x')).length)

/-- A stand-in for `bcrypt.compare`. -/
def miniCompare (password hash : String) : Bool :=
  decide (miniHashPassword hash.data = password.data)

/-- A library instance on which the handlers can be evaluated: a marked copy of the
input stands for the SHA-256 digest. -/
def demoLib : Lib :=
  { stringify := miniStringify
    parse := miniParse
    dateToJSON := fun n => String.mk (Nat.toDigits 10 n)
    sha256hex := fun s => "sha256:" ++ s
    bcryptHash := miniHash
    bcryptCompare := miniCompare
    emailUser := "noreply@radiant.test"
    clientUrl := "https://radiant.test" }

/-- An environment in which nothing fails. -/
def demoEnv (now : Nat) : Env :=
  { now := now, salt := "s4lt", randomHex := "c0ffee", newId := "u1", faults := Faults.none }

/-- A registered user whose password is `pw1`. -/
def alice : User :=
  { _id := "u1", username := "alice", email := "a@x.com",
    password := miniHash "pw1" "s4lt", createdAt := 1000 }

/-- A world with one registered user and nothing else. -/
def demoWorld : World :=
  { users := [alice], tokens := [], cache := [], session := none, outbox := [] }

/-! ## Definitions used to state the properties -/

/-- The same request environment with a cache that works. -/
def Env.withWorkingCache (env : Env) : Env :=
  { env with faults := { env.faults with
      cacheGet := fun _ => false, cacheSetEx := fun _ => false, cacheDel := fun _ => false } }

/-- The conflict test of `register`: the query `$or: [email, username]`. -/
def conflicts (email username : String) (u : User) : Bool :=
  u.email == email || u.username == username

/-- The same request environment with the outcome of `transporter.sendMail` set:
`fails = true` is a rejected send. -/
def Env.withSendMail (env : Env) (fails : Bool) : Env :=
  { env with faults := { env.faults with sendMail := fails } }

/-- The record `forgotPassword` stores for user id `userId`. -/
def issuedToken (lib : Lib) (env : Env) (userId : String) : Token :=
  { userId := userId, token := lib.sha256hex env.randomHex, expires := env.now + 3600000 }

/-- The mail `forgotPassword` hands to the transporter for `user`. -/
def resetMail (lib : Lib) (env : Env) (user : User) : Mail :=
  { sender := lib.emailUser, recipient := user.email, subject := "Password Reset",
    text := "You requested a password reset. Please make a PUT request to: "
      ++ (lib.clientUrl ++ "/reset-password/" ++ env.randomHex) }

/-- The query of `resetPassword` on the token collection:
`token: hashedToken, expires: $gt now`. -/
def redeemable (lib : Lib) (env : Env) (token : String) (t : Token) : Bool :=
  t.token == lib.sha256hex token && decide (t.expires > env.now)

/-- The user document `resetPassword` saves: `user` with the hash of the new
password. -/
def withNewPassword (lib : Lib) (env : Env) (user : User) (password : String) : User :=
  { user with password := lib.bcryptHash password env.salt }

/-- The state of `demoWorld` once a reset token for its user has been issued with
raw token `c0ffee` at time 10. -/
def demoWorldWithToken : World :=
  { demoWorld with tokens := [{ userId := "u1", token := "sha256:c0ffee", expires := 3600010 }] }

/-- Whether property `k` of `v` is the string `s`. -/
def fieldIs (v : JVal) (k s : String) : Bool :=
  match v.field k with
  | some (.str x) => x == s
  | _ => false

/-- Whether the cache holds under `key` a JSON text whose `_id`, `username`, `email`
and `createdAt` are those of the store record `u` (in their JSON form). -/
def cachedMatches (lib : Lib) (cache : List CacheEntry) (key : String) (u : User) : Bool :=
  match cache.find? (fun e => e.key == key) with
  | none => false
  | some e =>
    match lib.parse e.value with
    | .error _ => false
    | .ok v =>
      fieldIs v "_id" u._id && fieldIs v "username" u.username && fieldIs v "email" u.email
        && fieldIs v "createdAt" (lib.dateToJSON u.createdAt)

/-- Cache coherence for user `u` logged in with `email`: both `user:<id>` and
`user:email:<email>` are present and agree with the store record. -/
def cacheCoherent (lib : Lib) (w : World) (u : User) (email : String) : Bool :=
  cachedMatches lib w.cache ("user:" ++ u._id) u
    && cachedMatches lib w.cache ("user:email:" ++ email) u

/-- An environment in which `deleteOne()` on a token rejects and nothing else does. -/
def demoEnvDeleteFails : Env :=
  { demoEnv 20 with faults := { Faults.none with tokenDelete := true } }

/-- An environment in which `client.setEx` rejects for the key `user:u1` only. -/
def demoEnvIdKeyFails : Env :=
  { demoEnv 5 with faults := { Faults.none with cacheSetEx := fun k => k == "user:u1" } }

/-- The state after the user of `demoWorld` logged in with `pw1` at time 5. -/
def demoAfterLogin : World :=
  (login demoLib (demoEnv 5) demoWorld "a@x.com" "pw1").2

/-- The state after that user then asked for a password reset at time 10. -/
def demoAfterForgot : World :=
  (forgotPassword demoLib (demoEnv 10) demoAfterLogin "a@x.com").2

/-- The state after the reset token was then redeemed for `pw2` at time 20. -/
def demoAfterReset : World :=
  (resetPassword demoLib (demoEnv 20) demoAfterForgot "c0ffee" "pw2").2

/-! # Properties -/

/-! ## The cache layer never rejects -/

theorem getFromCache_ok (lib : Lib) (f : Faults) (cache : List CacheEntry) (key : String) :
    ∃ v, getFromCache lib f cache key = .ok v := by
  unfold getFromCache
  split
  · exact ⟨_, rfl⟩
  · exact ⟨_, rfl⟩

theorem setInCache_ok (lib : Lib) (f : Faults) (cache : List CacheEntry) (key : String)
    (data : JVal) (expiration : Option Nat) :
    ∃ b c, setInCache lib f cache key data expiration = .ok (b, c) := by
  unfold setInCache
  split
  · rename_i r _; exact ⟨r.1, r.2, rfl⟩
  · exact ⟨_, _, rfl⟩

theorem getFromCache_of_get_fails (lib : Lib) (f : Faults) (cache : List CacheEntry)
    (key : String) (h : f.cacheGet key = true) :
    getFromCache lib f cache key = .ok .null := by
  simp [getFromCache, getFromCacheTry, clientGet, h]

theorem setInCache_of_setEx_fails (lib : Lib) (f : Faults) (cache : List CacheEntry)
    (key : String) (data : JVal) (expiration : Option Nat) (h : f.cacheSetEx key = true) :
    setInCache lib f cache key data expiration = .ok (false, cache) := by
  unfold setInCache setInCacheTry
  cases lib.stringify data <;> simp [clientSetEx, h]

/-- C8. The cache layer fails soft. `getFromCache` always returns, and returns null
when `client.get` rejects, when the stored text is not valid JSON and when the key
is absent. `setInCache` always returns, its result is `true` exactly when
`JSON.stringify` and `client.setEx` both succeed, and an omitted expiration is
86400 seconds (the entry then stored carries that TTL). `deleteFromCache` always
returns, with `true` exactly when `client.del` succeeds. -/
theorem cache_layer_fails_soft (lib : Lib) (f : Faults) (cache : List CacheEntry)
    (key : String) (data : JVal) (expiration : Option Nat) :
    (∃ v, getFromCache lib f cache key = .ok v)
    ∧ ((∃ e, clientGet f cache key = .error e) → getFromCache lib f cache key = .ok .null)
    ∧ (∀ s e, clientGet f cache key = .ok (some s) → lib.parse s = .error e →
        getFromCache lib f cache key = .ok .null)
    ∧ (clientGet f cache key = .ok none → getFromCache lib f cache key = .ok .null)
    ∧ (∃ b c, setInCache lib f cache key data expiration = .ok (b, c))
    ∧ (∀ b c, setInCache lib f cache key data expiration = .ok (b, c) →
        (b = true ↔ ∃ s c1, lib.stringify data = .ok s
          ∧ clientSetEx f cache key (expiration.getD DEFAULT_EXPIRATION) s = .ok c1))
    ∧ (∀ b c, setInCache lib f cache key data expiration = .ok (b, c) → b = false →
        c = cache)
    ∧ setInCache lib f cache key data none = setInCache lib f cache key data (some 86400)
    ∧ (∀ c, setInCache lib f cache key data none = .ok (true, c) →
        ∃ s, lib.stringify data = .ok s
          ∧ c.find? (fun e => e.key == key) = some { key := key, ttl := 86400, value := s })
    ∧ (∃ b c, deleteFromCache f cache key = .ok (b, c))
    ∧ (∀ b c, deleteFromCache f cache key = .ok (b, c) →
        (b = true ↔ ∃ c1, clientDel f cache key = .ok c1)) := by
  refine ⟨getFromCache_ok lib f cache key, ?_, ?_, ?_, setInCache_ok lib f cache key data _,
    ?_, ?_, ?_, ?_, ?_, ?_⟩
  · rintro ⟨e, he⟩
    simp [getFromCache, getFromCacheTry, he]
  · intro s e hs he
    simp only [getFromCache, getFromCacheTry, hs]
    by_cases h : s = "" <;> simp [h, he]
  · intro h
    simp [getFromCache, getFromCacheTry, h]
  · intro b c
    unfold setInCache setInCacheTry
    cases hs : lib.stringify data with
    | error e => simp; rintro rfl _; rfl
    | ok s =>
      cases hc : clientSetEx f cache key (expiration.getD DEFAULT_EXPIRATION) s with
      | error e => simp [hc]; rintro rfl _; rfl
      | ok c1 => simp [hc]; rintro rfl _; rfl
  · intro b c
    unfold setInCache setInCacheTry
    cases hs : lib.stringify data with
    | error e => simp; rintro rfl rfl; simp
    | ok s =>
      cases hc : clientSetEx f cache key (expiration.getD DEFAULT_EXPIRATION) s with
      | error e => simp [hc]; rintro rfl rfl; simp
      | ok c1 => simp [hc]; rintro rfl _; simp
  · rfl
  · intro c
    unfold setInCache setInCacheTry
    cases hs : lib.stringify data with
    | error e => simp
    | ok s =>
      simp only [clientSetEx, Option.getD_none, DEFAULT_EXPIRATION]
      by_cases hf : f.cacheSetEx key = true
      · simp [hf]
      · simp [hf]
        rintro rfl
        simp
  · unfold deleteFromCache
    cases clientDel f cache key <;> simp
  · intro b c
    unfold deleteFromCache
    cases clientDel f cache key <;> simp
    · rintro rfl _; rfl
    · rintro rfl _; rfl


/-! ## Login -/

/-- C1. When no store call rejects, `login` answers 401 `Invalid credentials` and
leaves `req.session.userId` as it was in each of these cases: the cache has nothing
truthy under `user:email:<email>` and the store has no user with the email; the
cached user's hash does not verify; the user read from the store has a hash that
does not verify. The response is the same in all of them. -/
theorem login_invalid_credentials (lib : Lib) (env : Env) (w : World)
    (email password : String) (v : JVal)
    (hstore : env.faults.userFind = false)
    (hcache : getFromCache lib env.faults w.cache ("user:email:" ++ email) = .ok v)
    (h : (v.truthy = false ∧ w.users.find? (fun u => u.email == email) = none)
      ∨ (v.truthy = true ∧ ∃ hash, v.field "password" = some (.str hash)
            ∧ lib.bcryptCompare password hash = false)
      ∨ (v.truthy = false ∧ ∃ u, w.users.find? (fun u => u.email == email) = some u
            ∧ lib.bcryptCompare password u.password = false)) :
    (login lib env w email password).1
        = { status := 401, body := .message "Invalid credentials" }
      ∧ (login lib env w email password).2.session = w.session := by
  rcases h with ⟨ht, hn⟩ | ⟨ht, hash, hp, hc⟩ | ⟨ht, u, hu, hc⟩
  · simp [login, loginTry, loginLookup, hcache, ht, userFindOne, hstore, hn]
  · simp [login, loginTry, loginLookup, hcache, ht, bcryptCompare, hp, hc]
  · obtain ⟨b1, c1, h1⟩ := setInCache_ok lib env.faults w.cache ("user:" ++ u._id)
      (publicProjection lib u) none
    obtain ⟨b2, c2, h2⟩ := setInCache_ok lib env.faults c1 ("user:email:" ++ email)
      (fullProjection lib u) none
    simp [login, loginTry, loginLookup, hcache, ht, userFindOne, hstore, hu, h1, h2,
      bcryptCompare, hc]

/-- Witness for C1: a wrong password for the user of `demoWorld`, empty cache. -/
theorem login_invalid_credentials_witness :
    (login demoLib (demoEnv 5) demoWorld "a@x.com" "wrong").1
        = { status := 401, body := .message "Invalid credentials" }
      ∧ (login demoLib (demoEnv 5) demoWorld "a@x.com" "wrong").2.session
        = demoWorld.session :=
  login_invalid_credentials demoLib (demoEnv 5) demoWorld "a@x.com" "wrong" .null rfl rfl
    (Or.inr (Or.inr ⟨rfl, _, rfl, rfl⟩))

/-- C7. When every `client.get` and `client.setEx` rejects and the store works,
`login` never answers 500: it answers 200 and sets `req.session.userId` to the
`_id` of the user the store returns for the email when that user's hash verifies,
and answers 401 with the session untouched otherwise. Response, session and both
collections are those of the same login against a working, empty cache. -/
theorem login_without_cache (lib : Lib) (env : Env) (w : World) (email password : String)
    (hget : ∀ k, env.faults.cacheGet k = true)
    (hset : ∀ k, env.faults.cacheSetEx k = true)
    (hstore : env.faults.userFind = false) :
    (login lib env w email password).1.status ≠ 500
    ∧ (match w.users.find? (fun u => u.email == email) with
       | some u =>
         if lib.bcryptCompare password u.password = true then
           (login lib env w email password).1
               = { status := 200, body := .message "Logged in successfully" }
             ∧ (login lib env w email password).2.session = some (.str u._id)
         else
           (login lib env w email password).1
               = { status := 401, body := .message "Invalid credentials" }
             ∧ (login lib env w email password).2.session = w.session
       | none =>
         (login lib env w email password).1
             = { status := 401, body := .message "Invalid credentials" }
           ∧ (login lib env w email password).2.session = w.session)
    ∧ (login lib env w email password).1
        = (login lib env.withWorkingCache { w with cache := [] } email password).1
    ∧ (login lib env w email password).2.session
        = (login lib env.withWorkingCache { w with cache := [] } email password).2.session
    ∧ (login lib env w email password).2.users
        = (login lib env.withWorkingCache { w with cache := [] } email password).2.users
    ∧ (login lib env w email password).2.tokens
        = (login lib env.withWorkingCache { w with cache := [] } email password).2.tokens := by
  have hg := getFromCache_of_get_fails lib env.faults w.cache ("user:email:" ++ email) (hget _)
  have hg2 : getFromCache lib env.withWorkingCache.faults [] ("user:email:" ++ email)
      = .ok .null := by
    simp [getFromCache, getFromCacheTry, clientGet, Env.withWorkingCache]
  have hs : env.withWorkingCache.faults.userFind = false := by
    simp [Env.withWorkingCache, hstore]
  cases hu : w.users.find? (fun u => u.email == email) with
  | none =>
    simp [login, loginTry, loginLookup, hg, hg2, JVal.truthy, userFindOne, hstore, hu, hs]
  | some u =>
    have h1 := setInCache_of_setEx_fails lib env.faults w.cache ("user:" ++ u._id)
      (publicProjection lib u) none (hset _)
    have h2 := setInCache_of_setEx_fails lib env.faults w.cache ("user:email:" ++ email)
      (fullProjection lib u) none (hset _)
    obtain ⟨b3, c3, h3⟩ := setInCache_ok lib env.withWorkingCache.faults []
      ("user:" ++ u._id) (publicProjection lib u) none
    obtain ⟨b4, c4, h4⟩ := setInCache_ok lib env.withWorkingCache.faults c3
      ("user:email:" ++ email) (fullProjection lib u) none
    by_cases hc : lib.bcryptCompare password u.password = true
    · simp [login, loginTry, loginLookup, hg, hg2, JVal.truthy, userFindOne, hstore, hu,
        h1, h2, h3, h4, hs, bcryptCompare, hc]
    · simp [login, loginTry, loginLookup, hg, hg2, JVal.truthy, userFindOne, hstore, hu,
        h1, h2, h3, h4, hs, bcryptCompare, hc]


/-- Witness for C7: Redis is down and the user of `demoWorld` logs in. -/
theorem login_without_cache_witness :
    (login demoLib { demoEnv 5 with faults := { Faults.none with
        cacheGet := fun _ => true, cacheSetEx := fun _ => true } }
      demoWorld "a@x.com" "pw1").1.status ≠ 500 :=
  (login_without_cache demoLib { demoEnv 5 with faults := { Faults.none with
        cacheGet := fun _ => true, cacheSetEx := fun _ => true } }
      demoWorld "a@x.com" "pw1" (fun _ => rfl) (fun _ => rfl) rfl).1

/-! ## Registration -/

theorem register_of_conflict (lib : Lib) (env : Env) (w : World)
    (username email password : String) (u : User)
    (hfind : env.faults.userFind = false)
    (hu : w.users.find? (conflicts email username) = some u) :
    register lib env w [] username email password
      = ({ status := 400, body := .message "User already exists" }, w) := by
  have hu2 : w.users.find? (fun u => u.email == email || u.username == username) = some u := hu
  simp [register, registerTry, userFindOne, hfind, hu2]

theorem register_of_no_conflict (lib : Lib) (env : Env) (w : World)
    (username email password : String)
    (hfind : env.faults.userFind = false) (hsave : env.faults.userSave = false)
    (hu : w.users.find? (conflicts email username) = none) :
    (register lib env w [] username email password).1
        = { status := 201, body := .message "User registered successfully" }
      ∧ (register lib env w [] username email password).2.users
        = w.users ++ [{ _id := env.newId, username := username, email := email,
                          password := lib.bcryptHash password env.salt,
                          createdAt := env.now }] := by
  have hu2 : w.users.find? (fun u => u.email == email || u.username == username) = none := hu
  obtain ⟨b, c, hc⟩ := setInCache_ok lib env.faults w.cache ("user:" ++ env.newId)
    (publicProjection lib
      { _id := env.newId, username := username, email := email,
        password := lib.bcryptHash password env.salt, createdAt := env.now }) none
  simp [register, registerTry, userFindOne, hfind, hu2, userInsert, hsave, hc]

/-- C5. For an input that passes validation, when the store's find and save do not
reject: `register` answers 400 `User already exists` exactly when the store holds a
user with that email or that username, and then the whole state (store and cache)
is as before; otherwise it answers 201 and the store is the old one followed by
one new user with that username and email. After a 201, any further registration
of the same email answers 400. -/
theorem register_conflict (lib : Lib) (env : Env) (w : World)
    (username email password : String)
    (hfind : env.faults.userFind = false) (hsave : env.faults.userSave = false) :
    ((register lib env w [] username email password).1
        = { status := 400, body := .message "User already exists" }
      ↔ ∃ u ∈ w.users, u.email = email ∨ u.username = username)
    ∧ ((∃ u ∈ w.users, u.email = email ∨ u.username = username) →
        (register lib env w [] username email password).2 = w)
    ∧ ((¬ ∃ u ∈ w.users, u.email = email ∨ u.username = username) →
        (register lib env w [] username email password).1
            = { status := 201, body := .message "User registered successfully" }
          ∧ (register lib env w [] username email password).2.users
            = w.users ++ [{ _id := env.newId, username := username, email := email,
                              password := lib.bcryptHash password env.salt,
                              createdAt := env.now }]
          ∧ ∀ (env2 : Env) (username2 password2 : String),
              env2.faults.userFind = false →
              (register lib env2 (register lib env w [] username email password).2 []
                  username2 email password2).1
                = { status := 400, body := .message "User already exists" }) := by
  have key : ∀ (us : List User) (e n : String),
      (∃ u ∈ us, u.email = e ∨ u.username = n) ↔ (us.find? (conflicts e n)).isSome = true := by
    intro us e n
    simp [List.find?_isSome, conflicts]
  cases hu : w.users.find? (conflicts email username) with
  | some u =>
    have hex : ∃ u ∈ w.users, u.email = email ∨ u.username = username :=
      (key _ _ _).2 (by simp [hu])
    have h := register_of_conflict lib env w username email password u hfind hu
    refine ⟨?_, ?_, ?_⟩
    · simp only [h, true_iff]; exact hex
    · intro _; simp [h]
    · intro hn; exact absurd hex hn
  | none =>
    have hex : ¬ ∃ u ∈ w.users, u.email = email ∨ u.username = username := by
      rw [key]; simp [hu]
    have h := register_of_no_conflict lib env w username email password hfind hsave hu
    refine ⟨?_, ?_, ?_⟩
    · rw [h.1]
      constructor
      · intro h2; simp at h2
      · intro h2; exact absurd h2 hex
    · intro h2; exact absurd h2 hex
    · intro _
      refine ⟨h.1, h.2, ?_⟩
      intro env2 username2 password2 hfind2
      have hex2 : (((register lib env w [] username email password).2.users).find?
          (conflicts email username2)).isSome = true := by
        rw [← key, h.2]
        exact ⟨_, List.mem_append_right _ (List.mem_singleton_self _), Or.inl rfl⟩
      obtain ⟨u2, hu2⟩ := Option.isSome_iff_exists.1 hex2
      rw [register_of_conflict lib env2 _ username2 email password2 u2 hfind2 hu2]

/-- Witness for C5: `bob` registers in `demoWorld`. -/
theorem register_conflict_witness :
    (register demoLib { demoEnv 7 with newId := "u2" } demoWorld [] "bob" "b@x.com" "pw9").1
      = { status := 201, body := .message "User registered successfully" } :=
  ((register_conflict demoLib { demoEnv 7 with newId := "u2" } demoWorld "bob" "b@x.com" "pw9"
    rfl rfl).2.2 (by decide)).1

/-! ## Password reset: issuing a token -/

theorem forgotPassword_of_user (lib : Lib) (env : Env) (w : World) (email : String)
    (u : User) (hfind : env.faults.userFind = false) (hsave : env.faults.tokenSave = false)
    (hu : w.users.find? (fun u => u.email == email) = some u) :
    forgotPassword lib env w email
      = ({ status := 200, body := .msg "Password reset email sent" },
         { w with tokens := w.tokens ++ [issuedToken lib env u._id],
                  outbox := if env.faults.sendMail = true then w.outbox
                            else w.outbox ++ [resetMail lib env u] }) := by
  by_cases hm : env.faults.sendMail = true
  · simp [forgotPassword, forgotPasswordTry, userFindOne, hfind, hu, tokenInsert, hsave,
      sendEmail, transporterSendMail, hm, issuedToken]
  · simp [forgotPassword, forgotPasswordTry, userFindOne, hfind, hu, tokenInsert, hsave,
      sendEmail, transporterSendMail, hm, issuedToken, resetMail]

theorem forgotPassword_of_no_user (lib : Lib) (env : Env) (w : World) (email : String)
    (hfind : env.faults.userFind = false)
    (hu : w.users.find? (fun u => u.email == email) = none) :
    forgotPassword lib env w email
      = ({ status := 400, body := .msg "User with this email does not exist" }, w) := by
  simp [forgotPassword, forgotPasswordTry, userFindOne, hfind, hu]

/-- C9. When the user lookup does not reject. If the store returns user `u` for the
email and the token save succeeds, `forgotPassword` answers 200 `Password reset
email sent`, and the token collection is the old one followed by the single record
`(u._id, sha256 of the raw token, now + 3600000)`; users, cache and session are
untouched; response and token collection are the same for a failing and for a
working transporter, which differ only in whether the mail carrying the raw token
in its URL reaches the outbox; the stored value is the digest, so it differs from
the raw token whenever the digest of the raw token does. If the store has no user
with the email, it answers 400 `User with this email does not exist` and the state
is unchanged: no token, no mail. -/
theorem forgotPassword_issues_digest (lib : Lib) (env : Env) (w : World) (email : String)
    (hfind : env.faults.userFind = false) :
    (∀ u, w.users.find? (fun u => u.email == email) = some u →
      env.faults.tokenSave = false →
        (forgotPassword lib env w email).1
            = { status := 200, body := .msg "Password reset email sent" }
        ∧ (forgotPassword lib env w email).2.tokens
            = w.tokens ++ [{ userId := u._id, token := lib.sha256hex env.randomHex,
                             expires := env.now + 3600000 }]
        ∧ (forgotPassword lib env w email).2.users = w.users
        ∧ (forgotPassword lib env w email).2.cache = w.cache
        ∧ (forgotPassword lib env w email).2.session = w.session
        ∧ (∀ fails : Bool,
            (forgotPassword lib (env.withSendMail fails) w email).1
                = (forgotPassword lib env w email).1
            ∧ (forgotPassword lib (env.withSendMail fails) w email).2.tokens
                = (forgotPassword lib env w email).2.tokens)
        ∧ (forgotPassword lib (env.withSendMail false) w email).2.outbox
            = w.outbox ++ [resetMail lib env u]
        ∧ (forgotPassword lib (env.withSendMail true) w email).2.outbox = w.outbox
        ∧ (lib.sha256hex env.randomHex ≠ env.randomHex →
            ∀ t ∈ (forgotPassword lib env w email).2.tokens, t ∉ w.tokens →
              t.token ≠ env.randomHex))
    ∧ (w.users.find? (fun u => u.email == email) = none →
        forgotPassword lib env w email
          = ({ status := 400, body := .msg "User with this email does not exist" }, w)) := by
  refine ⟨?_, forgotPassword_of_no_user lib env w email hfind⟩
  intro u hu hsave
  have h := forgotPassword_of_user lib env w email u hfind hsave hu
  have hf : ∀ fails, forgotPassword lib (env.withSendMail fails) w email
      = ({ status := 200, body := .msg "Password reset email sent" },
         { w with tokens := w.tokens ++ [issuedToken lib env u._id],
                  outbox := if fails = true then w.outbox
                            else w.outbox ++ [resetMail lib env u] }) := by
    intro fails
    have := forgotPassword_of_user lib (env.withSendMail fails) w email u
      (by simp [Env.withSendMail, hfind]) (by simp [Env.withSendMail, hsave]) hu
    simpa [Env.withSendMail, issuedToken, resetMail] using this
  refine ⟨by rw [h], by rw [h]; rfl, by rw [h], by rw [h], by rw [h], ?_, ?_, ?_, ?_⟩
  · intro fails
    rw [hf fails, h]
    exact ⟨rfl, rfl⟩
  · rw [hf false]; simp
  · rw [hf true]; simp
  · intro hne t ht hnot
    rw [h] at ht
    simp only [List.mem_append, List.mem_singleton] at ht
    rcases ht with ht | ht
    · exact absurd ht hnot
    · rw [ht]; exact hne

/-- Witness for C9: the user of `demoWorld` asks for a reset at time 10. -/
theorem forgotPassword_issues_digest_witness :
    (forgotPassword demoLib (demoEnv 10) demoWorld "a@x.com").2.tokens
      = [{ userId := "u1", token := "sha256:c0ffee", expires := 3600010 }] :=
  ((forgotPassword_issues_digest demoLib (demoEnv 10) demoWorld "a@x.com" rfl).1
    _ rfl rfl).2.1

/-! ## Password reset: redeeming a token -/

theorem find?_replaceUser (u1 : User) (users : List User) (u : User)
    (h : users.find? (fun v => v._id == u1._id) = some u) :
    (replaceUser u1 users).find? (fun v => v._id == u1._id) = some u1 := by
  induction users with
  | nil => simp at h
  | cons v rest ih =>
    by_cases hv : v._id = u1._id
    · simp [replaceUser, hv]
    · have hb : (v._id == u1._id) = false := by simpa using hv
      simp only [List.find?_cons, hb] at h
      simp [replaceUser, hv, List.find?_cons, ih h]

theorem resetPassword_of_no_token (lib : Lib) (env : Env) (w : World)
    (token password : String) (hfind : env.faults.tokenFind = false)
    (ht : w.tokens.find? (redeemable lib env token) = none) :
    resetPassword lib env w token password
      = ({ status := 400, body := .msg "Invalid or expired token" }, w) := by
  have ht2 : w.tokens.find?
      (fun t => t.token == lib.sha256hex token && decide (t.expires > env.now)) = none := ht
  simp [resetPassword, resetPasswordTry, tokenFindOne, hfind, ht2]

theorem resetPassword_of_no_user (lib : Lib) (env : Env) (w : World)
    (token password : String) (t : Token) (hfind : env.faults.tokenFind = false)
    (hufind : env.faults.userFind = false)
    (ht : w.tokens.find? (redeemable lib env token) = some t)
    (hu : w.users.find? (fun v => v._id == t.userId) = none) :
    resetPassword lib env w token password
      = ({ status := 400, body := .msg "User not found" }, w) := by
  have ht2 : w.tokens.find?
      (fun t => t.token == lib.sha256hex token && decide (t.expires > env.now)) = some t := ht
  simp [resetPassword, resetPasswordTry, tokenFindOne, hfind, ht2, userFindOne, hufind, hu]

theorem resetPassword_of_success (lib : Lib) (env : Env) (w : World)
    (token password : String) (t : Token) (u : User)
    (hfind : env.faults.tokenFind = false) (hufind : env.faults.userFind = false)
    (husave : env.faults.userSave = false) (hdel : env.faults.tokenDelete = false)
    (ht : w.tokens.find? (redeemable lib env token) = some t)
    (hu : w.users.find? (fun v => v._id == t.userId) = some u) :
    resetPassword lib env w token password
      = ({ status := 200, body := .msg "Password reset successful" },
         { w with users := replaceUser (withNewPassword lib env u password) w.users,
                  tokens := w.tokens.erase t }) := by
  have ht2 : w.tokens.find?
      (fun t => t.token == lib.sha256hex token && decide (t.expires > env.now)) = some t := ht
  simp [resetPassword, resetPasswordTry, tokenFindOne, hfind, ht2, userFindOne, hufind, hu,
    userUpdate, husave, tokenDeleteOne, hdel, withNewPassword]

theorem resetPassword_of_delete_fails (lib : Lib) (env : Env) (w : World)
    (token password : String) (t : Token) (u : User)
    (hfind : env.faults.tokenFind = false) (hufind : env.faults.userFind = false)
    (husave : env.faults.userSave = false) (hdel : env.faults.tokenDelete = true)
    (ht : w.tokens.find? (redeemable lib env token) = some t)
    (hu : w.users.find? (fun v => v._id == t.userId) = some u) :
    resetPassword lib env w token password
      = ({ status := 500, body := .msg "Server error" },
         { w with users := replaceUser (withNewPassword lib env u password) w.users }) := by
  have ht2 : w.tokens.find?
      (fun t => t.token == lib.sha256hex token && decide (t.expires > env.now)) = some t := ht
  simp [resetPassword, resetPasswordTry, tokenFindOne, hfind, ht2, userFindOne, hufind, hu,
    userUpdate, husave, tokenDeleteOne, hdel, withNewPassword, serverErrorMsg]

/-- The four outcomes of `resetPassword`: a 500 that keeps the token collection, a
400 of either kind that keeps the whole state, and a 200 that replaces the user
and removes the redeemed token record. -/
theorem resetPassword_cases (lib : Lib) (env : Env) (w : World) (token password : String) :
    ((resetPassword lib env w token password).1.status = 500
      ∧ (resetPassword lib env w token password).2.tokens = w.tokens)
    ∨ resetPassword lib env w token password
        = ({ status := 400, body := .msg "Invalid or expired token" }, w)
    ∨ resetPassword lib env w token password
        = ({ status := 400, body := .msg "User not found" }, w)
    ∨ ∃ t u, w.tokens.find? (redeemable lib env token) = some t
        ∧ w.users.find? (fun v => v._id == t.userId) = some u
        ∧ resetPassword lib env w token password
          = ({ status := 200, body := .msg "Password reset successful" },
             { w with users := replaceUser (withNewPassword lib env u password) w.users,
                      tokens := w.tokens.erase t }) := by
  by_cases hfind : env.faults.tokenFind = true
  · left; simp [resetPassword, resetPasswordTry, tokenFindOne, hfind, serverErrorMsg]
  have hfind : env.faults.tokenFind = false := by simpa using hfind
  cases ht : w.tokens.find? (redeemable lib env token) with
  | none => right; left; exact resetPassword_of_no_token lib env w token password hfind ht
  | some t =>
    have ht2 : w.tokens.find?
      (fun t => t.token == lib.sha256hex token && decide (t.expires > env.now)) = some t := ht
    by_cases hufind : env.faults.userFind = true
    · left
      simp [resetPassword, resetPasswordTry, tokenFindOne, hfind, ht2, userFindOne, hufind,
        serverErrorMsg]
    have hufind : env.faults.userFind = false := by simpa using hufind
    cases hu : w.users.find? (fun v => v._id == t.userId) with
    | none =>
      right; right; left
      exact resetPassword_of_no_user lib env w token password t hfind hufind ht hu
    | some u =>
      by_cases husave : env.faults.userSave = true
      · left
        simp [resetPassword, resetPasswordTry, tokenFindOne, hfind, ht2, userFindOne, hufind,
          hu, userUpdate, husave, serverErrorMsg]
      have husave : env.faults.userSave = false := by simpa using husave
      by_cases hdel : env.faults.tokenDelete = true
      · left
        rw [resetPassword_of_delete_fails lib env w token password t u hfind hufind husave
          hdel ht hu]
        exact ⟨rfl, rfl⟩
      have hdel : env.faults.tokenDelete = false := by simpa using hdel
      right; right; right
      exact ⟨t, u, rfl, hu, resetPassword_of_success lib env w token password t u hfind
        hufind husave hdel ht hu⟩

/-- C10. `resetPassword` is not atomic. When the token `t` is found, its user `u`
is found, `user.save()` succeeds and `deleteOne()` rejects, the answer is 500
`Server error`, the stored user with that id now carries the hash of the new
password, and the token collection is as before, so `t` is still in it. Whenever
the answer has status 400 (`Invalid or expired token` or `User not found`), users,
tokens, cache and the rest of the state are unchanged. -/
theorem resetPassword_not_atomic (lib : Lib) (env : Env) (w : World)
    (token password : String) :
    (∀ t u, w.tokens.find? (redeemable lib env token) = some t →
      w.users.find? (fun v => v._id == t.userId) = some u →
      env.faults.tokenFind = false → env.faults.userFind = false →
      env.faults.userSave = false → env.faults.tokenDelete = true →
        (resetPassword lib env w token password).1
            = { status := 500, body := .msg "Server error" }
        ∧ (resetPassword lib env w token password).2.users
            = replaceUser { u with password := lib.bcryptHash password env.salt } w.users
        ∧ (resetPassword lib env w token password).2.users.find?
              (fun v => v._id == t.userId)
            = some { u with password := lib.bcryptHash password env.salt }
        ∧ (resetPassword lib env w token password).2.tokens = w.tokens
        ∧ t ∈ (resetPassword lib env w token password).2.tokens
        ∧ (resetPassword lib env w token password).2.cache = w.cache)
    ∧ ((resetPassword lib env w token password).1.status = 400 →
        (resetPassword lib env w token password).2 = w)
    ∧ ((resetPassword lib env w token password).1
          = { status := 400, body := .msg "User not found" } →
        (resetPassword lib env w token password).2.tokens = w.tokens) := by
  have h400 : (resetPassword lib env w token password).1.status = 400 →
      (resetPassword lib env w token password).2 = w := by
    intro h
    rcases resetPassword_cases lib env w token password with h5 | h4 | h4 | ⟨t, u, _, _, h2⟩
    · rw [h5.1] at h; exact absurd h (by decide)
    · rw [h4]
    · rw [h4]
    · rw [h2] at h; simp at h
  refine ⟨?_, h400, ?_⟩
  · intro t u ht hu hfind hufind husave hdel
    have h := resetPassword_of_delete_fails lib env w token password t u hfind hufind husave
      hdel ht hu
    have hid : t.userId = (withNewPassword lib env u password)._id := by
      have := List.find?_some hu
      simp only [beq_iff_eq] at this
      simp [withNewPassword, this]
    refine ⟨by rw [h], by rw [h]; rfl, ?_, by rw [h], ?_, by rw [h]⟩
    · rw [h]
      show (replaceUser (withNewPassword lib env u password) w.users).find? _ = _
      rw [hid]
      exact find?_replaceUser _ _ u (by rw [← hid]; exact hu)
    · rw [h]
      exact List.mem_of_find?_eq_some ht
  · intro h
    rw [h400 (by rw [h])]

/-- The first part of C10 on a concrete state: in `demoWorldWithToken` a reset to
`pw2` whose `deleteOne()` rejects answers 500, yet the stored hash is already that
of `pw2` and the token record is still there. -/
theorem resetPassword_not_atomic_demo :
    (resetPassword demoLib demoEnvDeleteFails demoWorldWithToken "c0ffee" "pw2").1
      = { status := 500, body := .msg "Server error" }
    ∧ (resetPassword demoLib demoEnvDeleteFails demoWorldWithToken "c0ffee" "pw2").2.users
      = [{ alice with password := demoLib.bcryptHash "pw2" "s4lt" }]
    ∧ (resetPassword demoLib demoEnvDeleteFails demoWorldWithToken "c0ffee" "pw2").2.tokens
      = demoWorldWithToken.tokens := by
  refine ⟨by decide, by decide, by decide⟩

/-! ## What each handler does to the token collection -/

theorem register_snd (lib : Lib) (env : Env) (w : World) (errors : List String)
    (username email password : String) :
    (register lib env w errors username email password).2
      = (registerTry lib env w errors username email password).2 := by
  unfold register
  split <;> rename_i h <;> rw [h]

theorem register_tokens (lib : Lib) (env : Env) (w : World) (errors : List String)
    (username email password : String) :
    (register lib env w errors username email password).2.tokens = w.tokens := by
  rw [register_snd]
  unfold registerTry
  repeat' (first | split | dsimp only)

theorem login_snd (lib : Lib) (env : Env) (w : World) (email password : String) :
    (login lib env w email password).2 = (loginTry lib env w email password).2 := by
  unfold login
  split <;> rename_i h <;> rw [h]

theorem loginLookup_tokens (lib : Lib) (env : Env) (w : World) (email : String) :
    (loginLookup lib env w email).2.tokens = w.tokens := by
  unfold loginLookup
  repeat' (first | split | dsimp only)

theorem login_tokens (lib : Lib) (env : Env) (w : World) (email password : String) :
    (login lib env w email password).2.tokens = w.tokens := by
  rw [login_snd, ← loginLookup_tokens lib env w email]
  unfold loginTry
  split <;> rename_i h <;> rw [h]
  split
  · rfl
  · split <;> rfl

theorem forgotPassword_snd (lib : Lib) (env : Env) (w : World) (email : String) :
    (forgotPassword lib env w email).2 = (forgotPasswordTry lib env w email).2 := by
  unfold forgotPassword
  split <;> rename_i h <;> rw [h]

theorem forgotPassword_tokens (lib : Lib) (env : Env) (w : World) (email : String) :
    (forgotPassword lib env w email).2.tokens = w.tokens
    ∨ ∃ u : User, (forgotPassword lib env w email).2.tokens
        = w.tokens ++ [issuedToken lib env u._id] := by
  rw [forgotPassword_snd]
  unfold forgotPasswordTry
  cases userFindOne env.faults w.users (fun u => u.email == email) with
  | error e => left; rfl
  | ok o =>
    cases o with
    | none => left; rfl
    | some user =>
      by_cases hs : env.faults.tokenSave = true
      · left; simp [tokenInsert, hs]
      · right
        refine ⟨user, ?_⟩
        simp only [tokenInsert, hs, issuedToken]
        cases sendEmail lib env.faults w.outbox user.email "Password Reset"
          ("You requested a password reset. Please make a PUT request to: "
            ++ (lib.clientUrl ++ "/reset-password/" ++ env.randomHex)) <;> rfl

theorem resetPassword_tokens (lib : Lib) (env : Env) (w : World) (token password : String) :
    (resetPassword lib env w token password).2.tokens = w.tokens
    ∨ ∃ t, (resetPassword lib env w token password).2.tokens = w.tokens.erase t := by
  rcases resetPassword_cases lib env w token password with h | h | h | ⟨t, u, _, _, h⟩
  · exact Or.inl h.2
  · rw [h]; exact Or.inl rfl
  · rw [h]; exact Or.inl rfl
  · rw [h]; exact Or.inr ⟨t, rfl⟩

theorem countP_erase_add_one (p : Token → Bool) (t : Token) (l : List Token) (ht : t ∈ l)
    (hp : p t = true) : (l.erase t).countP p + 1 = l.countP p := by
  induction l with
  | nil => simp at ht
  | cons a rest ih =>
    by_cases hat : a = t
    · subst hat
      simp [List.countP_cons, hp]
    · have hb : (a == t) = false := by simpa using hat
      have hmem : t ∈ rest := by
        rcases List.mem_cons.1 ht with h | h
        · exact absurd h.symm hat
        · exact h
      rw [List.erase_cons, hb]
      simp only [Bool.false_eq_true, if_false, List.countP_cons]
      have := ih hmem
      omega

/-- A request other than a `forgotPassword` that draws a raw token of digest `d`
does not create a token record of digest `d`. -/
theorem handle_keeps_digest_absent (lib : Lib) (env : Env) (w : World) (r : Request)
    (d : String) (hno : ∀ t ∈ w.tokens, t.token ≠ d)
    (hr : ∀ e, r = .forgotPassword e → lib.sha256hex env.randomHex ≠ d) :
    ∀ t ∈ (handle lib env w r).2.tokens, t.token ≠ d := by
  cases r with
  | register errors username email password =>
    simp only [handle, register_tokens]; exact hno
  | login email password =>
    simp only [handle, login_tokens]; exact hno
  | logout => exact hno
  | forgotPassword email =>
    simp only [handle]
    rcases forgotPassword_tokens lib env w email with h | ⟨u, h⟩
    · rw [h]; exact hno
    · rw [h]
      intro t ht
      rcases List.mem_append.1 ht with ht | ht
      · exact hno t ht
      · rw [List.mem_singleton.1 ht]
        exact hr email rfl
  | resetPassword token password =>
    simp only [handle]
    rcases resetPassword_tokens lib env w token password with h | ⟨t0, h⟩
    · rw [h]; exact hno
    · rw [h]
      intro t ht
      exact hno t (List.mem_of_mem_erase ht)

theorem runAll_keeps_digest_absent (lib : Lib) (d : String) (trace : List (Env × Request)) :
    ∀ (w : World), (∀ t ∈ w.tokens, t.token ≠ d) →
      (∀ er ∈ trace, ∀ e, er.2 = .forgotPassword e → lib.sha256hex er.1.randomHex ≠ d) →
      ∀ t ∈ (runAll lib w trace).tokens, t.token ≠ d := by
  induction trace with
  | nil => intro w hno _; exact hno
  | cons er rest ih =>
    intro w hno htr
    obtain ⟨env, r⟩ := er
    refine ih _ (handle_keeps_digest_absent lib env w r d hno ?_) ?_
    · exact htr (env, r) (List.mem_cons_self _ _)
    · intro er her
      exact htr er (List.mem_cons_of_mem _ her)

theorem resetPassword_of_digest_absent (lib : Lib) (env : Env) (w : World)
    (token password : String) (hfind : env.faults.tokenFind = false)
    (hno : ∀ t ∈ w.tokens, t.token ≠ lib.sha256hex token) :
    resetPassword lib env w token password
      = ({ status := 400, body := .msg "Invalid or expired token" }, w) := by
  apply resetPassword_of_no_token lib env w token password hfind
  rw [List.find?_eq_none]
  intro t ht
  simp [redeemable, hno t ht]

/-- C3. A reset token is single use. If exactly one token record carries the
digest of the raw token and `resetPassword` with that raw token answers 200, then
no record with that digest is left in the store; and after any further sequence
of requests in which no `forgotPassword` draws a raw token with the same digest,
`resetPassword` with the same raw token, at any time and with any new password,
answers 400 `Invalid or expired token` (when its token lookup does not reject) and
leaves the whole state, the users' stored passwords included, as it was. -/
theorem reset_token_single_use (lib : Lib) (env : Env) (w : World) (raw password : String)
    (huniq : w.tokens.countP (fun t => t.token == lib.sha256hex raw) = 1)
    (h200 : (resetPassword lib env w raw password).1.status = 200) :
    (∀ t ∈ (resetPassword lib env w raw password).2.tokens, t.token ≠ lib.sha256hex raw)
    ∧ ∀ (trace : List (Env × Request)),
        (∀ er ∈ trace, ∀ e, er.2 = .forgotPassword e →
          lib.sha256hex er.1.randomHex ≠ lib.sha256hex raw) →
        ∀ (env2 : Env) (password2 : String), env2.faults.tokenFind = false →
          resetPassword lib env2
              (runAll lib (resetPassword lib env w raw password).2 trace) raw password2
            = ({ status := 400, body := .msg "Invalid or expired token" },
               runAll lib (resetPassword lib env w raw password).2 trace) := by
  have hgone : ∀ t ∈ (resetPassword lib env w raw password).2.tokens,
      t.token ≠ lib.sha256hex raw := by
    rcases resetPassword_cases lib env w raw password with h | h | h | ⟨t, u, ht, _, h⟩
    · rw [h.1] at h200; exact absurd h200 (by decide)
    · rw [h] at h200; simp at h200
    · rw [h] at h200; simp at h200
    · rw [h]
      have hp : (fun t : Token => t.token == lib.sha256hex raw) t = true := by
        have := List.find?_some ht
        simp only [redeemable, Bool.and_eq_true] at this
        exact this.1
      have hc := countP_erase_add_one (fun t => t.token == lib.sha256hex raw) t w.tokens
        (List.mem_of_find?_eq_some ht) hp
      have hz : (w.tokens.erase t).countP (fun t => t.token == lib.sha256hex raw) = 0 := by
        omega
      intro x hx
      have := (List.countP_eq_zero.1 hz) x hx
      simpa using this
  refine ⟨hgone, ?_⟩
  intro trace htrace env2 password2 hfind2
  exact resetPassword_of_digest_absent lib env2 _ raw password2 hfind2
    (runAll_keeps_digest_absent lib _ trace _ hgone htrace)

/-- Witness for C3: the token of `demoWorldWithToken` is redeemed at time 20 and
presented again at time 30. -/
theorem reset_token_single_use_witness :
    resetPassword demoLib (demoEnv 30)
        (resetPassword demoLib (demoEnv 20) demoWorldWithToken "c0ffee" "pw2").2 "c0ffee" "pw3"
      = ({ status := 400, body := .msg "Invalid or expired token" },
         (resetPassword demoLib (demoEnv 20) demoWorldWithToken "c0ffee" "pw2").2) :=
  (reset_token_single_use demoLib (demoEnv 20) demoWorldWithToken "c0ffee" "pw2"
    (by decide) (by decide)).2 [] (by simp) (demoEnv 30) "pw3" rfl

/-! ## Password reset: the expiry window -/

theorem find?_eq_some_of_unique (p : Token → Bool) (l : List Token) (a : Token)
    (ha : a ∈ l) (hp : p a = true) (hu : ∀ x ∈ l, p x = true → x = a) :
    l.find? p = some a := by
  cases h : l.find? p with
  | none =>
    rw [List.find?_eq_none] at h
    exact absurd hp (h a ha)
  | some x =>
    rw [hu x (List.mem_of_find?_eq_some h) (List.find?_some h)]

theorem resetPassword_expiry (lib : Lib) (env : Env) (w : World) (raw password uid : String)
    (t0 : Nat)
    (hrec : { userId := uid, token := lib.sha256hex raw, expires := t0 + 3600000 } ∈ w.tokens)
    (huniq : ∀ r ∈ w.tokens, r.token = lib.sha256hex raw →
      r = { userId := uid, token := lib.sha256hex raw, expires := t0 + 3600000 })
    (huser : ∃ v ∈ w.users, v._id = uid)
    (hfind : env.faults.tokenFind = false) (hufind : env.faults.userFind = false)
    (husave : env.faults.userSave = false) (hdel : env.faults.tokenDelete = false) :
    (env.now < t0 + 3600000 →
      (resetPassword lib env w raw password).1
        = { status := 200, body := .msg "Password reset successful" })
    ∧ (t0 + 3600000 ≤ env.now →
      resetPassword lib env w raw password
        = ({ status := 400, body := .msg "Invalid or expired token" }, w)) := by
  constructor
  · intro hlt
    have ht : w.tokens.find? (redeemable lib env raw)
        = some { userId := uid, token := lib.sha256hex raw, expires := t0 + 3600000 } := by
      apply find?_eq_some_of_unique _ _ _ hrec
      · simp [redeemable, hlt]
      · intro x hx hpx
        simp only [redeemable, Bool.and_eq_true, beq_iff_eq] at hpx
        exact huniq x hx hpx.1
    have hsome : (w.users.find? (fun v => v._id == uid)).isSome = true := by
      rw [List.find?_isSome]
      obtain ⟨v, hv, hid⟩ := huser
      exact ⟨v, hv, by simp [hid]⟩
    obtain ⟨u, hu⟩ := Option.isSome_iff_exists.1 hsome
    rw [resetPassword_of_success lib env w raw password _ u hfind hufind husave hdel ht hu]
  · intro hge
    apply resetPassword_of_no_token lib env w raw password hfind
    rw [List.find?_eq_none]
    intro x hx
    by_cases hd : x.token = lib.sha256hex raw
    · rw [huniq x hx hd]
      simp only [redeemable, beq_self_eq_true, Bool.true_and, decide_eq_true_eq]
      omega
    · simp [redeemable, hd]

/-- C4. A token record written by `forgotPassword` at clock time `t0` has
`expires = t0 + 3600000`. With no store call rejecting, `resetPassword` at clock
time `t` with the matching raw token (no other record has that digest, the user
still exists) answers 200 exactly when `t < t0 + 3600000`; from the expiry instant
on it answers 400 `Invalid or expired token` and changes nothing, which is also the
answer for a raw token whose digest matches no record. The same holds in every
later state that still holds the record as the only one of its digest. -/
theorem reset_token_expiry (lib : Lib) (env0 env : Env) (w0 : World)
    (email password : String) (u : User)
    (hu : w0.users.find? (fun v => v.email == email) = some u)
    (hfind0 : env0.faults.userFind = false) (hsave0 : env0.faults.tokenSave = false)
    (hfresh : ∀ r ∈ w0.tokens, r.token ≠ lib.sha256hex env0.randomHex)
    (hfind : env.faults.tokenFind = false) (hufind : env.faults.userFind = false)
    (husave : env.faults.userSave = false) (hdel : env.faults.tokenDelete = false) :
    (forgotPassword lib env0 w0 email).2.tokens
        = w0.tokens ++ [{ userId := u._id, token := lib.sha256hex env0.randomHex,
                          expires := env0.now + 3600000 }]
    ∧ ((resetPassword lib env (forgotPassword lib env0 w0 email).2
          env0.randomHex password).1.status = 200
        ↔ env.now < env0.now + 3600000)
    ∧ (env.now < env0.now + 3600000 →
        (resetPassword lib env (forgotPassword lib env0 w0 email).2
            env0.randomHex password).1
          = { status := 200, body := .msg "Password reset successful" })
    ∧ (env0.now + 3600000 ≤ env.now →
        resetPassword lib env (forgotPassword lib env0 w0 email).2 env0.randomHex password
          = ({ status := 400, body := .msg "Invalid or expired token" },
             (forgotPassword lib env0 w0 email).2))
    ∧ (∀ (w : World) (raw2 : String), (∀ r ∈ w.tokens, r.token ≠ lib.sha256hex raw2) →
        resetPassword lib env w raw2 password
          = ({ status := 400, body := .msg "Invalid or expired token" }, w))
    ∧ (∀ (w : World) (raw uid : String) (t0 : Nat),
        { userId := uid, token := lib.sha256hex raw, expires := t0 + 3600000 } ∈ w.tokens →
        (∀ r ∈ w.tokens, r.token = lib.sha256hex raw →
          r = { userId := uid, token := lib.sha256hex raw, expires := t0 + 3600000 }) →
        (∃ v ∈ w.users, v._id = uid) →
          ((resetPassword lib env w raw password).1.status = 200 ↔ env.now < t0 + 3600000)
          ∧ (t0 + 3600000 ≤ env.now →
              resetPassword lib env w raw password
                = ({ status := 400, body := .msg "Invalid or expired token" }, w))) := by
  have hgen : ∀ (w : World) (raw uid : String) (t0 : Nat),
      { userId := uid, token := lib.sha256hex raw, expires := t0 + 3600000 } ∈ w.tokens →
      (∀ r ∈ w.tokens, r.token = lib.sha256hex raw →
        r = { userId := uid, token := lib.sha256hex raw, expires := t0 + 3600000 }) →
      (∃ v ∈ w.users, v._id = uid) →
        ((resetPassword lib env w raw password).1.status = 200 ↔ env.now < t0 + 3600000)
        ∧ (env.now < t0 + 3600000 →
            (resetPassword lib env w raw password).1
              = { status := 200, body := .msg "Password reset successful" })
        ∧ (t0 + 3600000 ≤ env.now →
            resetPassword lib env w raw password
              = ({ status := 400, body := .msg "Invalid or expired token" }, w)) := by
    intro w raw uid t0 hrec huniq huser
    have h := resetPassword_expiry lib env w raw password uid t0 hrec huniq huser hfind hufind
      husave hdel
    refine ⟨?_, h.1, h.2⟩
    constructor
    · intro h2
      by_contra hlt
      rw [h.2 (by omega)] at h2
      simp at h2
    · intro hlt
      rw [h.1 hlt]
  have hf := forgotPassword_of_user lib env0 w0 email u hfind0 hsave0 hu
  have htok : (forgotPassword lib env0 w0 email).2.tokens
      = w0.tokens ++ [{ userId := u._id, token := lib.sha256hex env0.randomHex,
                        expires := env0.now + 3600000 }] := by
    rw [hf]; rfl
  have husers : (forgotPassword lib env0 w0 email).2.users = w0.users := by rw [hf]
  have h1 := hgen (forgotPassword lib env0 w0 email).2 env0.randomHex u._id env0.now
    (by rw [htok]; simp)
    (by
      rw [htok]
      intro r hr hd
      rcases List.mem_append.1 hr with hr | hr
      · exact absurd hd (hfresh r hr)
      · exact List.mem_singleton.1 hr)
    (by rw [husers]; exact ⟨u, List.mem_of_find?_eq_some hu, rfl⟩)
  refine ⟨htok, h1.1, h1.2.1, h1.2.2, ?_, ?_⟩
  · intro w raw2 hno
    exact resetPassword_of_digest_absent lib env w raw2 password hfind hno
  · intro w raw uid t0 hrec huniq huser
    have := hgen w raw uid t0 hrec huniq huser
    exact ⟨this.1, this.2.2⟩

/-- Witness for C4: the token issued in `demoWorld` at time 10 is presented at the
expiry instant 3600010. -/
theorem reset_token_expiry_witness :
    resetPassword demoLib (demoEnv 3600010)
        (forgotPassword demoLib (demoEnv 10) demoWorld "a@x.com").2 "c0ffee" "pw2"
      = ({ status := 400, body := .msg "Invalid or expired token" },
         (forgotPassword demoLib (demoEnv 10) demoWorld "a@x.com").2) :=
  (reset_token_expiry demoLib (demoEnv 10) (demoEnv 3600010) demoWorld "a@x.com" "pw2"
    _ rfl rfl rfl (by simp [demoWorld]) rfl rfl rfl rfl).2.2.2.1 (by decide)

/-! ## Cache coherence after login -/

theorem find?_after_setEx (cache : List CacheEntry) (key : String) (ttl : Nat)
    (value : String) :
    ({ key := key, ttl := ttl, value := value } :: cache.filter (fun e => e.key != key)).find?
        (fun e => e.key == key)
      = some { key := key, ttl := ttl, value := value } := by
  simp

theorem cachedMatches_public (lib : Lib) (cache : List CacheEntry) (key s : String)
    (e : CacheEntry) (u : User) (he : cache.find? (fun e => e.key == key) = some e)
    (hv : e.value = s) (hp : lib.parse s = .ok (publicProjection lib u)) :
    cachedMatches lib cache key u = true := by
  simp [cachedMatches, he, hv, hp, fieldIs, JVal.field, publicProjection]

theorem cachedMatches_full (lib : Lib) (cache : List CacheEntry) (key s : String)
    (e : CacheEntry) (u : User) (he : cache.find? (fun e => e.key == key) = some e)
    (hv : e.value = s) (hp : lib.parse s = .ok (fullProjection lib u)) :
    cachedMatches lib cache key u = true := by
  simp [cachedMatches, he, hv, hp, fieldIs, JVal.field, fullProjection]

/-- The cache after the two writes of the miss path of `login`. -/
theorem loginLookup_of_miss (lib : Lib) (env : Env) (w : World) (email : String)
    (u : User) (v : JVal) (s1 s2 : String)
    (hcache : getFromCache lib env.faults w.cache ("user:email:" ++ email) = .ok v)
    (hv : v.truthy = false) (hfind : env.faults.userFind = false)
    (hu : w.users.find? (fun u => u.email == email) = some u)
    (hset1 : env.faults.cacheSetEx ("user:" ++ u._id) = false)
    (hset2 : env.faults.cacheSetEx ("user:email:" ++ email) = false)
    (hs1 : lib.stringify (publicProjection lib u) = .ok s1)
    (hs2 : lib.stringify (fullProjection lib u) = .ok s2) :
    (loginLookup lib env w email).2.cache
      = { key := "user:email:" ++ email, ttl := 86400, value := s2 }
        :: ({ key := "user:" ++ u._id, ttl := 86400, value := s1 }
            :: w.cache.filter (fun e => e.key != "user:" ++ u._id)).filter
              (fun e => e.key != "user:email:" ++ email) := by
  simp [loginLookup, hcache, hv, userFindOne, hfind, hu, setInCache, setInCacheTry, hs1, hs2,
    clientSetEx, hset1, hset2, DEFAULT_EXPIRATION]

theorem login_cache (lib : Lib) (env : Env) (w : World) (email password : String) :
    (login lib env w email password).2.cache = (loginLookup lib env w email).2.cache := by
  rw [login_snd]
  unfold loginTry
  split <;> rename_i h <;> rw [h]
  split
  · rfl
  · split <;> rfl

/-- C6, as amended. When `login` reads nothing truthy under `user:email:<email>`,
finds the user `u` in the store, both `client.setEx` calls succeed and `JSON.parse`
gives back the two cached objects from their `JSON.stringify` texts, the cache
afterwards holds entries under `user:<id>` and under `user:email:<email>` whose
`_id`, `username`, `email` and `createdAt` are those of `u`; this holds whatever the
response, in particular when it is 200. When `login` reads a truthy value from the
cache it leaves the cache exactly as it was. -/
theorem login_miss_refreshes_cache (lib : Lib) (env : Env) (w : World)
    (email password : String) (v : JVal)
    (hcache : getFromCache lib env.faults w.cache ("user:email:" ++ email) = .ok v) :
    (v.truthy = false → env.faults.userFind = false →
      ∀ (u : User) (s1 s2 : String),
        w.users.find? (fun u => u.email == email) = some u →
        env.faults.cacheSetEx ("user:" ++ u._id) = false →
        env.faults.cacheSetEx ("user:email:" ++ email) = false →
        lib.stringify (publicProjection lib u) = .ok s1 →
        lib.parse s1 = .ok (publicProjection lib u) →
        lib.stringify (fullProjection lib u) = .ok s2 →
        lib.parse s2 = .ok (fullProjection lib u) →
          cacheCoherent lib (login lib env w email password).2 u email = true)
    ∧ (v.truthy = true → (login lib env w email password).2.cache = w.cache) := by
  constructor
  · intro hv hfind u s1 s2 hu hset1 hset2 hs1 hp1 hs2 hp2
    have hc := loginLookup_of_miss lib env w email u v s1 s2 hcache hv hfind hu hset1 hset2
      hs1 hs2
    have h2 : cachedMatches lib (login lib env w email password).2.cache
        ("user:email:" ++ email) u = true := by
      rw [login_cache, hc]
      exact cachedMatches_full lib _ _ s2 _ u (find?_after_setEx _ _ _ _) rfl hp2
    have h1 : cachedMatches lib (login lib env w email password).2.cache
        ("user:" ++ u._id) u = true := by
      by_cases hk : "user:" ++ u._id = "user:email:" ++ email
      · rw [hk]; exact h2
      · rw [login_cache, hc]
        refine cachedMatches_public lib _ _ s1
          { key := "user:" ++ u._id, ttl := 86400, value := s1 } u ?_ rfl hp1
        have hk2 : ¬ "user:email:" ++ email = "user:" ++ u._id := fun h => hk h.symm
        simp [List.find?_cons, List.filter_cons, hk, hk2]
    simp [cacheCoherent, h1, h2]
  · intro hv
    rw [login_cache]
    simp [loginLookup, hcache, hv]

/-- Witness for C6 as amended: the first login in `demoWorld`. -/
theorem login_miss_refreshes_cache_witness :
    cacheCoherent demoLib (login demoLib (demoEnv 5) demoWorld "a@x.com" "pw1").2 alice
      "a@x.com" = true :=
  (login_miss_refreshes_cache demoLib (demoEnv 5) demoWorld "a@x.com" "pw1" .null rfl).1
    rfl rfl alice _ _ rfl rfl rfl rfl rfl rfl rfl

/-- Counterexample to C6 as stated. In `demoWorld` a first login during which
`client.setEx` rejects for `user:u1` answers 200 and caches the user under
`user:email:a@x.com` only. A second login, with nothing failing, is served from the
cache and answers 200 for user `u1`; afterwards there is still no entry under
`user:u1`, so the cache is not coherent. -/
theorem login_hit_leaves_cache_incoherent :
    (login demoLib demoEnvIdKeyFails demoWorld "a@x.com" "pw1").1.status = 200
    ∧ (login demoLib (demoEnv 6)
        (login demoLib demoEnvIdKeyFails demoWorld "a@x.com" "pw1").2 "a@x.com" "pw1").1
        = { status := 200, body := .message "Logged in successfully" }
    ∧ (login demoLib (demoEnv 6)
        (login demoLib demoEnvIdKeyFails demoWorld "a@x.com" "pw1").2
        "a@x.com" "pw1").2.session = some (.str "u1")
    ∧ (login demoLib (demoEnv 6)
        (login demoLib demoEnvIdKeyFails demoWorld "a@x.com" "pw1").2
        "a@x.com" "pw1").2.cache.find? (fun e => e.key == "user:u1") = none
    ∧ cacheCoherent demoLib
        (login demoLib (demoEnv 6)
          (login demoLib demoEnvIdKeyFails demoWorld "a@x.com" "pw1").2 "a@x.com" "pw1").2
        alice "a@x.com" = false := by
  refine ⟨by decide, by decide, rfl, by decide, by decide⟩

/-! ## The cached hash outlives a password reset -/

theorem takeWhile_replicate_append (n : Nat) (rest : List Char) :
    (List.replicate n 'x' ++ '$' :: rest).takeWhile (fun c => c == 'x')
      = List.replicate n 'x' := by
  induction n with
  | zero => simp [List.takeWhile_cons]
  | succ n ih => simp [List.replicate_succ, List.takeWhile_cons, ih]

theorem miniHashPassword_miniHash (password salt : String) :
    miniHashPassword (miniHash password salt).data = password.data := by
  simp only [miniHash, miniHashPassword, takeWhile_replicate_append, List.length_replicate,
    String.length]
  rw [List.drop_append_eq_append_drop]
  simp

/-- The stand-in for bcrypt verifies a password against a hash exactly when the hash
was made from that password, whatever the salt. -/
theorem miniCompare_miniHash (p q salt : String) :
    demoLib.bcryptCompare p (demoLib.bcryptHash q salt) = decide (p = q) := by
  show miniCompare p (miniHash q salt) = decide (p = q)
  simp only [miniCompare, miniHashPassword_miniHash]
  by_cases h : p = q
  · simp [h]
  · have : ¬ q.data = p.data := fun hd => h (String.ext hd.symm)
    simp [h, this]

/-- On a cache hit the answer of `login` is decided by the cached hash alone. -/
theorem login_of_cache_hit (lib : Lib) (env : Env) (w : World) (email password : String)
    (v : JVal) (hash : String)
    (hcache : getFromCache lib env.faults w.cache ("user:email:" ++ email) = .ok v)
    (hv : v.truthy = true) (hp : v.field "password" = some (.str hash)) :
    (login lib env w email password).1
      = if lib.bcryptCompare password hash = true then
          { status := 200, body := .message "Logged in successfully" }
        else { status := 401, body := .message "Invalid credentials" } := by
  by_cases hc : lib.bcryptCompare password hash = true
  · simp [login, loginTry, loginLookup, hcache, hv, bcryptCompare, hp, hc]
  · simp [login, loginTry, loginLookup, hcache, hv, bcryptCompare, hp, hc]

theorem forgotPassword_cache (lib : Lib) (env : Env) (w : World) (email : String) :
    (forgotPassword lib env w email).2.cache = w.cache := by
  rw [forgotPassword_snd]
  unfold forgotPasswordTry
  repeat' (first | split | dsimp only)

theorem resetPassword_snd (lib : Lib) (env : Env) (w : World) (token password : String) :
    (resetPassword lib env w token password).2
      = (resetPasswordTry lib env w token password).2 := by
  unfold resetPassword
  split <;> rename_i h <;> rw [h]

theorem resetPassword_cache (lib : Lib) (env : Env) (w : World) (token password : String) :
    (resetPassword lib env w token password).2.cache = w.cache := by
  rw [resetPassword_snd]
  unfold resetPasswordTry
  repeat' (first | split | dsimp only)

/-- Neither `forgotPassword` nor `resetPassword` writes to the cache, so a `login`
that hits `user:email:<email>` after a reset answers as it would have before it:
200 for a password the cached hash verifies, 401 for any other, whatever hash the
store now holds. -/
theorem login_after_reset_of_cache_hit (lib : Lib) (env1 env2 env3 : Env) (w : World)
    (email token newPassword password : String) (v : JVal) (hash : String)
    (hcache : getFromCache lib env3.faults w.cache ("user:email:" ++ email) = .ok v)
    (hv : v.truthy = true) (hp : v.field "password" = some (.str hash)) :
    (login lib env3
        (resetPassword lib env2 (forgotPassword lib env1 w email).2 token newPassword).2
        email password).1
      = if lib.bcryptCompare password hash = true then
          { status := 200, body := .message "Logged in successfully" }
        else { status := 401, body := .message "Invalid credentials" } := by
  apply login_of_cache_hit lib env3 _ email password v hash _ hv hp
  rw [resetPassword_cache, forgotPassword_cache]
  exact hcache

/-! ## Login after a password reset -/

/-- C2 fails on the code. In `demoWorld` the user logs in with `pw1` (200, which
caches the old hash under `user:email:a@x.com`), asks for a reset (200) and redeems
the token for `pw2` (200): the store now holds the hash of `pw2`, which verifies
`pw2` and not `pw1`, but `resetPassword` left the cache entry in place, so the next
`login` with the old password `pw1` answers 200 and the `login` with the new
password `pw2` answers 401. -/
theorem login_after_reset_uses_stale_hash :
    (login demoLib (demoEnv 5) demoWorld "a@x.com" "pw1").1.status = 200
    ∧ (forgotPassword demoLib (demoEnv 10) demoAfterLogin "a@x.com").1.status = 200
    ∧ (resetPassword demoLib (demoEnv 20) demoAfterForgot "c0ffee" "pw2").1
        = { status := 200, body := .msg "Password reset successful" }
    ∧ demoAfterReset.users = [{ alice with password := demoLib.bcryptHash "pw2" "s4lt" }]
    ∧ demoAfterReset.tokens = []
    ∧ demoLib.bcryptCompare "pw1" (demoLib.bcryptHash "pw2" "s4lt") = false
    ∧ demoLib.bcryptCompare "pw2" (demoLib.bcryptHash "pw2" "s4lt") = true
    ∧ (login demoLib (demoEnv 30) demoAfterReset "a@x.com" "pw1").1
        = { status := 200, body := .message "Logged in successfully" }
    ∧ (login demoLib (demoEnv 30) demoAfterReset "a@x.com" "pw2").1
        = { status := 401, body := .message "Invalid credentials" } := by
  refine ⟨by decide, by decide, by decide, by decide, by decide, by decide, by decide,
    by decide, by decide⟩

/-- With nothing cached under `user:email:<email>`, the reset takes effect at once:
in the state of `demoWorldWithToken` (empty cache) after redeeming the token for
`pw2`, `login` with `pw1` answers 401 and `login` with `pw2` answers 200. -/
theorem login_after_reset_with_empty_cache :
    (login demoLib (demoEnv 30)
        (resetPassword demoLib (demoEnv 20) demoWorldWithToken "c0ffee" "pw2").2
        "a@x.com" "pw1").1
      = { status := 401, body := .message "Invalid credentials" }
    ∧ (login demoLib (demoEnv 30)
        (resetPassword demoLib (demoEnv 20) demoWorldWithToken "c0ffee" "pw2").2
        "a@x.com" "pw2").1
      = { status := 200, body := .message "Logged in successfully" } := by
  refine ⟨by decide, by decide⟩

end Radiant
